import Mathlib

/-!
Verification of the conversational email workflow engine
(`main.py` `chat_command` state machine and `gpt.py` drafter).

The Python code is shallowly embedded: dict-shaped session contexts become a
structure of optional fields, the external collaborators (Supabase queries,
the language-model calls, the outbound webhook) become oracle inputs in an
`Env` record, and each request run is a pure function returning the list of
persisted session writes, the list of attempted email sends, and either a
reply payload or an uncaught exception (the HTTP 500 path).
-/

namespace ProjectTracker

/-! ## Python string primitives

Helpers mirroring the Python string operations used by the code:
`str.lower`, `str.strip`, `in` (substring containment) and `str.split()`.
They operate on the character list so that concrete runs reduce well.
-/

/-- Characters removed by Python's `str.strip()` with no argument. -/
def isPyWs (c : Char) : Bool :=
  c == ' ' || c == '\t' || c == '\n' || c == '\r' || c == '\x0b' || c == '\x0c'

/-- Python `str.lower()` (ASCII case folding). -/
def pyLower (s : String) : String :=
  ⟨s.data.map Char.toLower⟩

/-- Python `str.strip()`: leading and trailing whitespace removed. -/
def pyStrip (s : String) : String :=
  ⟨((s.data.dropWhile isPyWs).reverse.dropWhile isPyWs).reverse⟩

/-- `needle` occurs contiguously in `hay` (empty needle always occurs). -/
def listInfix (needle : List Char) : List Char → Bool
  | [] => needle.isEmpty
  | c :: rest => needle.isPrefixOf (c :: rest) || listInfix needle rest

/-- Python `needle in hay` for strings. -/
def pyIn (needle hay : String) : Bool :=
  listInfix needle.data hay.data

/-- Accumulator loop for `str.split()`. -/
def splitWsAux : List Char → List Char → List String
  | [], acc => if acc.isEmpty then [] else [⟨acc.reverse⟩]
  | c :: cs, acc =>
    if isPyWs c then
      if acc.isEmpty then splitWsAux cs [] else ⟨acc.reverse⟩ :: splitWsAux cs []
    else
      splitWsAux cs (c :: acc)

/-- Python `str.split()` with no argument: whitespace runs, no empty pieces. -/
def pySplit (s : String) : List String :=
  splitWsAux s.data []

/-- Python truthiness of an optional string field: `None` and `""` are falsy. -/
def pyFalsy (o : Option String) : Prop :=
  o.getD "" = ""

instance (o : Option String) : Decidable (pyFalsy o) := by
  unfold pyFalsy; infer_instance

/-- Rendering of an optional value inside a Python f-string
(`None` prints as `"None"`). -/
def pyShowOpt (o : Option String) : String :=
  o.getD "None"

/-! ## Data model

A supplier row (only the fields the code reads), the session context dict,
the reply payload and the run result.
-/

/-- A row of the `suppliers` table, restricted to the fields the code uses
(`recipient["name"]`, `recipient["email"]`). -/
structure Recipient where
  name : String
  email : String
deriving Repr, DecidableEq

/-- The session `context` dict.  `none` models an absent key (or a stored
JSON `null`); `options` defaults to `[]` as in `context.get("options", [])`. -/
structure Ctx where
  chat_state : Option String := none
  options : List String := []
  last_topic : Option String := none
  recipient : Option Recipient := none
  last_email_message : Option String := none
  last_email_subject : Option String := none
deriving Repr, DecidableEq

/-- `context.clear()`: the empty dict. -/
def Ctx.empty : Ctx := {}

/-- `context.get("chat_state", "initial")`. -/
def chatStateOf (c : Ctx) : String :=
  c.chat_state.getD "initial"

/-- A reply payload: the `status` discriminator plus the optional fields the
various return dicts carry. -/
structure Reply where
  status : String
  message : Option String := none
  options : List String := []
  recipient : Option String := none
  recipient_email : Option String := none
  subject : Option String := none
  message_body : Option String := none
deriving Repr, DecidableEq

/-- The JSON payload posted to the outbound email webhook.
(The Python key `"to"` is a Lean keyword, hence `toAddr`.) -/
structure EmailPayload where
  toAddr : String
  to_name : String
  subject : String
  message : String
deriving Repr, DecidableEq

instance {ε α : Type} [DecidableEq ε] [DecidableEq α] : DecidableEq (Except ε α) := fun x y =>
  match x, y with
  | .ok a, .ok b =>
      if h : a = b then .isTrue (by rw [h]) else .isFalse (by simp [h])
  | .error a, .error b =>
      if h : a = b then .isTrue (by rw [h]) else .isFalse (by simp [h])
  | .ok _, .error _ => .isFalse (by simp)
  | .error _, .ok _ => .isFalse (by simp)

/-- Result of one `chat_command` request: every `update_session` context in
order, every attempted webhook send, and the reply — or an uncaught Python
exception (`Except.error`), which FastAPI turns into an HTTP 500. -/
structure RunResult where
  writes : List Ctx
  sends : List EmailPayload
  outcome : Except String Reply
deriving Repr, DecidableEq

/-- Parse result of the extraction call's content: `none` when `json.loads`
(or `.get` on a non-dict) raises inside the `try`, otherwise the values of
keys `"name"` and `"topic"` (absent or `null` become `none`). -/
structure ExtractDict where
  name : Option String := none
  topic : Option String := none
deriving Repr, DecidableEq

/-- Oracle inputs for one request: the external collaborators' answers. -/
structure Env where
  /-- outcome of parsing the extraction model's output (initial state). -/
  extractParse : Option ExtractDict := none
  /-- rows returned by the `ilike` name search (initial state). -/
  supplierSearch : List Recipient := []
  /-- rows returned by the exact-name lookup (recipient-choice state). -/
  supplierByName : List Recipient := []
  /-- raw content of the email-drafting model call, before `.strip()`. -/
  llmDraft : String := ""
  /-- webhook send outcome; `error` carries `str(e)`. -/
  webhook : Except String Unit := .ok ()
deriving Repr, DecidableEq

/-! ## The matcher of the `awaiting_recipient_choice` state

`main.py` lines 50-59: two sequential `for` loops with `break` — first an
exact lowercase comparison, then a substring containment test. -/

/-- First loop: `if normalized_input == option.lower(): break`. -/
def matchLoop1 (normalized_input : String) : List String → Option String
  | [] => none
  | option :: rest =>
    if normalized_input = pyLower option then some option
    else matchLoop1 normalized_input rest

/-- Second loop: `if normalized_input in option.lower(): break`. -/
def matchLoop2 (normalized_input : String) : List String → Option String
  | [] => none
  | option :: rest =>
    if pyIn normalized_input (pyLower option) then some option
    else matchLoop2 normalized_input rest

/-- `matched_recipient` after both loops (second runs only when the first
found nothing). -/
def matchedRecipient (normalized_input : String) (options : List String) : Option String :=
  match matchLoop1 normalized_input options with
  | some m => some m
  | none => matchLoop2 normalized_input options

/-! ## The three state handlers of `chat_command` -/

/-- `main.py` lines 46-111: the `awaiting_recipient_choice` branch.
The f-string interpolation of the Python list in the reprompt message is
approximated by `toString`. -/
def handleRecipientChoice (context : Ctx) (user_message : String) (env : Env) : RunResult :=
  let options := context.options
  let normalized_input := pyLower user_message
  match matchedRecipient normalized_input options with
  | none =>
    { writes := [context], sends := [],
      outcome := .ok
        { status := "ambiguous",
          message := some ("I didn\x27t catch that. Please choose one of these: "
          ++ toString options),
          options := options } }
  | some matched_recipient =>
    match env.supplierByName with
    | [] =>
      { writes := [context], sends := [],
        outcome := .ok
          { status := "error",
            message := some ("Could not find supplier \x27" ++ matched_recipient
            ++ "\x27. Please try again.") } }
    | recipient :: _ =>
      let ctx1 : Ctx := { context with
        chat_state := some "awaiting_approval",
        recipient := some recipient,
        last_topic := some (context.last_topic.getD "your request") }
      let draft_message := pyStrip env.llmDraft
      let draft_subject := "Follow-up on: " ++ context.last_topic.getD "your request"
      let ctx2 : Ctx := { ctx1 with
        last_email_message := some draft_message,
        last_email_subject := some draft_subject }
      { writes := [ctx1, ctx2], sends := [],
        outcome := .ok
          { status := "awaiting_approval",
            recipient := some recipient.name,
            recipient_email := some recipient.email,
            subject := some draft_subject,
            message := some draft_message } }

/-- `main.py` line 114. -/
def positive_responses : List String :=
  ["yes", "yeah", "yep", "sure", "correct", "go ahead", "send", "ok", "okay"]

/-- `main.py` line 115. -/
def negative_responses : List String :=
  ["no", "not", "change", "edit", "rewrite", "again", "redo"]

/-- `main.py` lines 113-186: the `awaiting_approval` branch. -/
def handleApproval (context : Ctx) (user_message : String) (env : Env) : RunResult :=
  let lower_msg := pyLower user_message
  let recipient := context.recipient
  let last_message := context.last_email_message
  let last_subject := context.last_email_subject
  if pyFalsy last_message ∨ pyFalsy last_subject ∨ recipient = none then
    { writes := [context], sends := [],
      outcome := .ok
        { status := "error",
          message := some "No draft available. Please start over." } }
  else if positive_responses.any (fun word => pyIn word lower_msg) then
    match recipient with
    | none =>
      -- subscripting `None` would raise; unreachable past the guard
      { writes := [], sends := [], outcome := .error "TypeError" }
    | some r =>
      let email_payload : EmailPayload :=
        { toAddr := r.email, to_name := r.name,
          subject := last_subject.getD "", message := last_message.getD "" }
      match env.webhook with
      | .error e =>
        { writes := [], sends := [email_payload],
          outcome := .ok
            { status := "error",
              message := some ("Failed to send email: " ++ e) } }
      | .ok _ =>
        { writes := [Ctx.empty], sends := [email_payload],
          outcome := .ok
            { status := "sent",
              message := some "Email sent successfully." } }
  else if negative_responses.any (fun word => pyIn word lower_msg) then
    match recipient with
    | none =>
      { writes := [], sends := [],
        outcome := .ok
          { status := "error",
            message := some "Recipient missing. Please start over." } }
    | some r =>
      let draft_message := pyStrip env.llmDraft
      let draft_subject := "Follow-up on: " ++ context.last_topic.getD "your request"
      let ctx1 : Ctx := { context with
        last_email_message := some draft_message,
        last_email_subject := some draft_subject }
      { writes := [ctx1], sends := [],
        outcome := .ok
          { status := "awaiting_approval",
            recipient := some r.name, recipient_email := some r.email,
            subject := some draft_subject, message := some draft_message } }
  else
    { writes := [], sends := [],
      outcome := .ok
        { status := "awaiting_approval",
          message := some "Please respond with Yes to send the email or No to rewrite it.",
          subject := last_subject, message_body := last_message } }

/-- `main.py` lines 188-278: the initial branch (extraction, directory
search, first draft or disambiguation).  The `json.loads` fallback takes
`user_message.split()[0]`, which raises `IndexError` on an empty message. -/
def handleInitial (_context : Ctx) (user_message : String) (env : Env) : RunResult :=
  let nameTopic : Except String (Option String × Option String) :=
    match env.extractParse with
    | some extracted => .ok (extracted.name, extracted.topic)
    | none =>
      match pySplit user_message with
      | [] => .error "IndexError: list index out of range"
      | w :: _ => .ok (some w, some user_message)
  match nameTopic with
  | .error e => { writes := [], sends := [], outcome := .error e }
  | .ok (name, topic) =>
    if pyFalsy name then
      { writes := [], sends := [],
        outcome := .ok
          { status := "error",
            message := some "Could not extract the supplier name from your message." } }
    else
      match env.supplierSearch with
      | [] =>
        { writes := [], sends := [],
          outcome := .ok
            { status := "error",
              message := some ("No suppliers found matching \x27"
              ++ name.getD "" ++ "\x27.") } }
      | [recipient] =>
        let ctx1 : Ctx :=
          { chat_state := some "awaiting_approval",
            recipient := some recipient,
            last_topic := topic }
        let draft_message := pyStrip env.llmDraft
        let draft_subject := "Follow-up on: " ++ pyShowOpt topic
        let ctx2 : Ctx := { ctx1 with
          last_email_message := some draft_message,
          last_email_subject := some draft_subject }
        { writes := [ctx1, ctx2], sends := [],
          outcome := .ok
            { status := "awaiting_approval",
              recipient := some recipient.name,
              recipient_email := some recipient.email,
              subject := some draft_subject, message := some draft_message } }
      | matchesList =>
        let names_list := matchesList.map Recipient.name
        let ctx1 : Ctx :=
          { chat_state := some "awaiting_recipient_choice",
            options := names_list,
            last_topic := topic }
        { writes := [ctx1], sends := [],
          outcome := .ok
            { status := "ambiguous",
              message := some "I found multiple possibilities. Please specify which one you mean:",
              options := names_list } }

/-- `main.py` lines 24-282: one request of the `/chat-command` endpoint,
dispatching on `context.get("chat_state", "initial")`. -/
def chat_command (session_context : Ctx) (message : String) (env : Env) : RunResult :=
  let user_message := pyStrip message
  let context := session_context
  let chat_state := chatStateOf context
  if chat_state = "awaiting_recipient_choice" then
    handleRecipientChoice context user_message env
  else if chat_state = "awaiting_approval" then
    handleApproval context user_message env
  else
    handleInitial context user_message env

/-- Effect of a run's writes on the session store: every persisted write is
an upsert (the code never issues a delete), so the slot holds the latest
written context; a deletion would leave `none`. -/
def applyWrites (store : Option Ctx) (writes : List Ctx) : Option Ctx :=
  writes.foldl (fun _ w => some w) store

/-! ## The drafter (`gpt.py` `generate_email_draft`)

JSON values as returned by `json.loads`; the parse outcome of the model's
output is the oracle input (`none` = `json.JSONDecodeError`). -/

inductive Jv where
  | str (s : String)
  | num (n : Int)
  | bool (b : Bool)
  | null
  | arr (elems : List Jv)
  | obj (fields : List (String × Jv))
deriving Repr

/-- Python dict key lookup on a parsed JSON object. -/
def jvLookup (fields : List (String × Jv)) (key : String) : Option Jv :=
  (fields.find? (fun kv => kv.1 = key)).map Prod.snd

/-- Python `s.startswith(pre)`. -/
def pyStartsWith (s pre : String) : Bool :=
  pre.data.isPrefixOf s.data

/-- The exceptions `generate_email_draft` catches. -/
inductive PyErr where
  | jsonDecodeError
  | valueError
  | attributeError
deriving Repr, DecidableEq

/-- The dict returned by `generate_email_draft`: `subject` is always a
string on the success path (it went through `.lower()`), `message` is
whatever JSON value sat under the key. -/
structure DraftOut where
  subject : String
  message : Jv
deriving Repr

/-- The `try` block of `generate_email_draft` (`gpt.py` lines 102-117),
starting after the model call: validation of the parsed JSON, cleanup of a
leaked `Subject:` prefix. -/
def draftTryBody (parsed : Option Jv) : Except PyErr DraftOut :=
  match parsed with
  | none => .error .jsonDecodeError
  | some p =>
    match p with
    | .obj fields =>
      match jvLookup fields "subject", jvLookup fields "message" with
      | some subjectV, some messageV =>
        match subjectV with
        | .str subject0 =>
          let subject :=
            if pyStartsWith (pyLower subject0) "subject:" then pyStrip ⟨subject0.data.drop 8⟩
            else subject0
          .ok { subject := subject, message := messageV }
        | _ => .error .attributeError
      | _, _ => .error .valueError
    | _ => .error .valueError

/-- The canned fallback template (`gpt.py` lines 121-124). -/
def fallbackDraft (name topic : String) : DraftOut :=
  { subject := "Follow-up: " ++ topic,
    message := .str ("Dear " ++ name
      ++ ",\n\nI hope this email finds you well. I wanted to follow up regarding "
      ++ topic ++ ".\n\nBest regards") }

/-- `gpt.py` lines 73-124: the whole function — the `try` body with the
`except (JSONDecodeError, ValueError, KeyError, AttributeError)` fallback. -/
def generate_email_draft (name topic : String) (parsed : Option Jv) : DraftOut :=
  match draftTryBody parsed with
  | .ok d => d
  | .error _ => fallbackDraft name topic

/-- Malformed generator output in the sense of the spec: non-JSON text, a
JSON value that is not an object, or an object missing a required field. -/
def malformedDraftOutput (parsed : Option Jv) : Bool :=
  match parsed with
  | none => true
  | some (.obj fields) =>
      (jvLookup fields "subject").isNone || (jvLookup fields "message").isNone
  | some _ => true

/-! ## Derived notions used by the theorems -/

/-- The AWAITING_CONFIRMATION data invariant: a context whose state is
`awaiting_approval` carries a recipient and a non-empty draft subject and
body. -/
def invariantOK (c : Ctx) : Prop :=
  chatStateOf c = "awaiting_approval" →
    c.recipient ≠ none ∧ ¬ pyFalsy c.last_email_subject ∧ ¬ pyFalsy c.last_email_message

instance (c : Ctx) : Decidable (invariantOK c) := by
  unfold invariantOK; infer_instance

/-- The reply status of a run (`none` on the HTTP-500 exception path). -/
def statusOf (r : RunResult) : Option String :=
  match r.outcome with
  | .ok reply => some reply.status
  | .error _ => none

/-! ## Helper lemmas -/

theorem string_append_ne_empty (a b : String) (ha : a ≠ "") : a ++ b ≠ "" := by
  intro h
  apply ha
  have hd := congrArg String.data h
  rw [String.data_append] at hd
  rcases List.append_eq_nil.mp hd with ⟨h1, _⟩
  exact String.ext h1

theorem matchLoop1_eq_find (n : String) (options : List String) :
    matchLoop1 n options = options.find? (fun o => n == pyLower o) := by
  induction options with
  | nil => rfl
  | cons o rest ih =>
    simp only [matchLoop1, List.find?]
    by_cases h : n = pyLower o
    · simp [h]
    · rw [if_neg h, ih, show (n == pyLower o) = false from beq_eq_false_iff_ne.mpr h]

theorem matchLoop2_eq_find (n : String) (options : List String) :
    matchLoop2 n options = options.find? (fun o => pyIn n (pyLower o)) := by
  induction options with
  | nil => rfl
  | cons o rest ih =>
    simp only [matchLoop2, List.find?]
    cases h : pyIn n (pyLower o) <;> simp [h, ih]

/-! ## Concrete fixtures for witnesses and counterexamples -/

/-- A directory row used by the concrete scenarios. -/
def rOmar : Recipient := ⟨"Omar Khalil", "omar@suppliers.example"⟩

/-- A session paused in `awaiting_recipient_choice`. -/
def ctxChoice : Ctx :=
  { chat_state := some "awaiting_recipient_choice",
    options := ["Omar Khalil"],
    last_topic := some "iron quotation" }

/-- Collaborator answers for resolving the choice: the supplier row exists
and the model returns a draft body. -/
def envChoice : Env :=
  { supplierByName := [rOmar],
    llmDraft := "Hi Omar, quick follow-up on the iron quotation." }

/-- The context persisted by the first `update_session` of the
recipient-choice transition (before the draft exists). -/
def ctxIntermediate : Ctx :=
  { chat_state := some "awaiting_approval",
    options := ["Omar Khalil"],
    last_topic := some "iron quotation",
    recipient := some rOmar }

/-- A session paused in `awaiting_approval` with a stored draft. -/
def ctxConfirm : Ctx :=
  { chat_state := some "awaiting_approval",
    recipient := some rOmar,
    last_topic := some "iron quotation",
    last_email_message := some "Hi Omar, following up on the iron quotation.",
    last_email_subject := some "Follow-up on: iron quotation" }

/-- Collaborators all succeed. -/
def envOk : Env :=
  { llmDraft := "Hi Omar, here is a reworded follow-up.", webhook := .ok () }

/-- The webhook rejects the send. -/
def envDown : Env :=
  { webhook := .error "500 Server Error: Internal Server Error" }

/-! ## Claims -/

/-- C2: in `awaiting_recipient_choice` the matcher returns the first
candidate equal (case-insensitively) to the trimmed input, else the first
candidate whose lowercased name contains the lowercased input, else none —
a deterministic function of the input and candidate order, ties broken by
listing order. -/
theorem C2_matcher_first_match (raw : String) (options : List String) :
    matchedRecipient (pyLower (pyStrip raw)) options =
      (options.find? (fun o => pyLower (pyStrip raw) == pyLower o)).orElse
        (fun _ => options.find? (fun o => pyIn (pyLower (pyStrip raw)) (pyLower o))) := by
  unfold matchedRecipient
  rw [matchLoop1_eq_find, matchLoop2_eq_find]
  cases options.find? (fun o => pyLower (pyStrip raw) == pyLower o) <;> rfl

/-- C5: on malformed generator output (non-JSON text, a non-object JSON
value, or an object missing `subject`/`message`) the drafter returns the
canned fallback, whose subject is `"Follow-up: {topic}"` and whose body
references the recipient and the topic; it never raises (it is a total
function into subject/body pairs). -/
theorem C5_drafter_fallback (name topic : String) (parsed : Option Jv)
    (h : malformedDraftOutput parsed = true) :
    generate_email_draft name topic parsed = fallbackDraft name topic ∧
    (generate_email_draft name topic parsed).subject = "Follow-up: " ++ topic := by
  have key : generate_email_draft name topic parsed = fallbackDraft name topic := by
    cases parsed with
    | none => rfl
    | some p =>
      cases p with
      | obj fields =>
        unfold malformedDraftOutput at h
        unfold generate_email_draft draftTryBody
        cases hs : jvLookup fields "subject" <;> cases hm : jvLookup fields "message" <;>
          simp_all
      | str s => rfl
      | num n => rfl
      | bool b => rfl
      | null => rfl
      | arr l => rfl
  exact ⟨key, by rw [key]; rfl⟩

/-- Witness for C5 at concrete malformed (non-JSON) generator output. -/
theorem C5_drafter_fallback_witness :
    generate_email_draft "Omar Khalil" "iron quotation" none =
      fallbackDraft "Omar Khalil" "iron quotation" :=
  (C5_drafter_fallback "Omar Khalil" "iron quotation" none rfl).1

/-- C3: in the confirmation state a reply containing both an affirmative
and a negative token is resolved as affirmative — the positive check runs
first, so the transport is invoked with the stored draft. -/
theorem C3_affirmative_checked_first (c : Ctx) (msg : String) (env : Env) (r : Recipient)
    (m s : String)
    (hst : c.chat_state = some "awaiting_approval")
    (hr : c.recipient = some r)
    (hm : c.last_email_message = some m) (hm0 : m ≠ "")
    (hs : c.last_email_subject = some s) (hs0 : s ≠ "")
    (hpos : positive_responses.any (fun word => pyIn word (pyLower (pyStrip msg))) = true)
    (_hneg : negative_responses.any (fun word => pyIn word (pyLower (pyStrip msg))) = true) :
    (chat_command c msg env).sends =
      [{ toAddr := r.email, to_name := r.name, subject := s, message := m }] := by
  rcases hwh : env.webhook with e | u <;>
    simp [chat_command, chatStateOf, hst, handleApproval, pyFalsy, hm, hs, hr, hm0, hs0,
      hpos, hwh]

/-- Witness for C3: the reply "no, send it" contains tokens of both sets and
is treated as approval. -/
theorem C3_affirmative_checked_first_witness :
    (chat_command ctxConfirm "no, send it" envOk).sends =
      [{ toAddr := rOmar.email, to_name := rOmar.name,
         subject := "Follow-up on: iron quotation",
         message := "Hi Omar, following up on the iron quotation." }] :=
  C3_affirmative_checked_first ctxConfirm "no, send it" envOk rOmar
    "Hi Omar, following up on the iron quotation." "Follow-up on: iron quotation"
    rfl rfl rfl (by decide) rfl (by decide) (by decide) (by decide)

/-- C4 counterexample: "approve" is in the spec's affirmative set but in
none of the code's keyword lists, so the engine reprompts instead of
sending — no transport call, no state change. -/
theorem C4_counterexample_approve :
    (chat_command ctxConfirm "approve" envOk).sends = [] ∧
    (chat_command ctxConfirm "approve" envOk).writes = [] ∧
    statusOf (chat_command ctxConfirm "approve" envOk) = some "awaiting_approval" := by
  decide

/-- C4 (amended): with the code's keyword lists — affirmative
`["yes","yeah","yep","sure","correct","go ahead","send","ok","okay"]`,
negative `["no","not","change","edit","rewrite","again","redo"]`, matched
case-insensitively by substring — a confirmation-state reply is affirmative
exactly when it contains a positive token (transport invoked), negative
exactly when it contains a negative token and no positive one (redraft),
and anything else reprompts without a session write. -/
theorem C4_keyword_classification (c : Ctx) (msg : String) (env : Env) (r : Recipient)
    (m s : String)
    (hst : c.chat_state = some "awaiting_approval")
    (hr : c.recipient = some r)
    (hm : c.last_email_message = some m) (hm0 : m ≠ "")
    (hs : c.last_email_subject = some s) (hs0 : s ≠ "") :
    (positive_responses.any (fun word => pyIn word (pyLower (pyStrip msg))) = true →
      (chat_command c msg env).sends =
        [{ toAddr := r.email, to_name := r.name, subject := s, message := m }]) ∧
    (positive_responses.any (fun word => pyIn word (pyLower (pyStrip msg))) = false →
      negative_responses.any (fun word => pyIn word (pyLower (pyStrip msg))) = true →
      (chat_command c msg env).sends = [] ∧
      (chat_command c msg env).writes =
        [{ c with
            last_email_message := some (pyStrip env.llmDraft),
            last_email_subject :=
              some ("Follow-up on: " ++ c.last_topic.getD "your request") }] ∧
      statusOf (chat_command c msg env) = some "awaiting_approval") ∧
    (positive_responses.any (fun word => pyIn word (pyLower (pyStrip msg))) = false →
      negative_responses.any (fun word => pyIn word (pyLower (pyStrip msg))) = false →
      (chat_command c msg env).sends = [] ∧
      (chat_command c msg env).writes = [] ∧
      (chat_command c msg env).outcome =
        .ok { status := "awaiting_approval",
              message := some "Please respond with Yes to send the email or No to rewrite it.",
              subject := some s, message_body := some m }) := by
  refine ⟨fun hpos => ?_, fun hpos hneg => ?_, fun hpos hneg => ?_⟩
  · rcases hwh : env.webhook with e | u <;>
      simp [chat_command, chatStateOf, hst, handleApproval, pyFalsy, hm, hs, hr, hm0, hs0,
        hpos, hwh]
  · simp [chat_command, chatStateOf, hst, handleApproval, pyFalsy, hm, hs, hr, hm0, hs0,
      hpos, hneg, statusOf]
  · simp [chat_command, chatStateOf, hst, handleApproval, pyFalsy, hm, hs, hr, hm0, hs0,
      hpos, hneg]

/-- Witness for C4 (amended): "hmm" contains no token of either list and
only reprompts. -/
theorem C4_keyword_classification_witness :
    (chat_command ctxConfirm "hmm" envOk).writes = [] ∧
    (chat_command ctxConfirm "hmm" envOk).sends = [] := by
  have h := C4_keyword_classification ctxConfirm "hmm" envOk rOmar
    "Hi Omar, following up on the iron quotation." "Follow-up on: iron quotation"
    rfl rfl rfl (by decide) rfl (by decide)
  obtain ⟨-, -, h3⟩ := h
  obtain ⟨h31, h32, -⟩ := h3 (by decide) (by decide)
  exact ⟨h32, h31⟩

/-- C6: when the webhook rejects the send, the reply is `status "error"`
carrying the provider's message and no session write occurs, so the stored
confirmation state is untouched and the user can re-confirm. -/
theorem C6_transport_failure_preserves_session (c : Ctx) (msg : String) (env : Env)
    (r : Recipient) (m s e : String)
    (hst : c.chat_state = some "awaiting_approval")
    (hr : c.recipient = some r)
    (hm : c.last_email_message = some m) (hm0 : m ≠ "")
    (hs : c.last_email_subject = some s) (hs0 : s ≠ "")
    (hpos : positive_responses.any (fun word => pyIn word (pyLower (pyStrip msg))) = true)
    (hwh : env.webhook = .error e) :
    (chat_command c msg env).writes = [] ∧
    (chat_command c msg env).outcome =
      .ok { status := "error", message := some ("Failed to send email: " ++ e) } := by
  simp [chat_command, chatStateOf, hst, handleApproval, pyFalsy, hm, hs, hr, hm0, hs0,
    hpos, hwh]

/-- Witness for C6 at a concrete provider rejection. -/
theorem C6_transport_failure_preserves_session_witness :
    (chat_command ctxConfirm "yes" envDown).writes = [] ∧
    (chat_command ctxConfirm "yes" envDown).outcome =
      .ok { status := "error",
            message :=
              some "Failed to send email: 500 Server Error: Internal Server Error" } :=
  C6_transport_failure_preserves_session ctxConfirm "yes" envDown rOmar
    "Hi Omar, following up on the iron quotation." "Follow-up on: iron quotation"
    "500 Server Error: Internal Server Error"
    rfl rfl rfl (by decide) rfl (by decide) (by decide) rfl

/-- C7 counterexample: after an approved send the session is not deleted —
the code upserts the session with an empty context, so the store still
holds a (cleared) session row. -/
theorem C7_counterexample_session_not_deleted :
    statusOf (chat_command ctxConfirm "yes" envOk) = some "sent" ∧
    applyWrites (some ctxConfirm) (chat_command ctxConfirm "yes" envOk).writes =
      some Ctx.empty ∧
    (applyWrites (some ctxConfirm) (chat_command ctxConfirm "yes" envOk).writes).isSome =
      true := by
  decide

/-- C7 (amended): an affirmative reply in the confirmation state invokes the
transport exactly once with the stored draft and the resolved recipient's
address, after which the session's context is cleared (upserted as the empty
context, so the next message starts fresh) and the reply has status
`"sent"`. -/
theorem C7_affirmative_sends_and_clears (c : Ctx) (msg : String) (env : Env)
    (r : Recipient) (m s : String)
    (hst : c.chat_state = some "awaiting_approval")
    (hr : c.recipient = some r)
    (hm : c.last_email_message = some m) (hm0 : m ≠ "")
    (hs : c.last_email_subject = some s) (hs0 : s ≠ "")
    (hpos : positive_responses.any (fun word => pyIn word (pyLower (pyStrip msg))) = true)
    (hwh : env.webhook = .ok ()) :
    (chat_command c msg env).sends =
      [{ toAddr := r.email, to_name := r.name, subject := s, message := m }] ∧
    (chat_command c msg env).writes = [Ctx.empty] ∧
    (chat_command c msg env).outcome =
      .ok { status := "sent", message := some "Email sent successfully." } := by
  simp [chat_command, chatStateOf, hst, handleApproval, pyFalsy, hm, hs, hr, hm0, hs0,
    hpos, hwh]

/-- Witness for C7 (amended) at the concrete confirmation session. -/
theorem C7_affirmative_sends_and_clears_witness :
    (chat_command ctxConfirm "yes" envOk).sends =
      [{ toAddr := rOmar.email, to_name := rOmar.name,
         subject := "Follow-up on: iron quotation",
         message := "Hi Omar, following up on the iron quotation." }] ∧
    (chat_command ctxConfirm "yes" envOk).writes = [Ctx.empty] ∧
    (chat_command ctxConfirm "yes" envOk).outcome =
      .ok { status := "sent", message := some "Email sent successfully." } :=
  C7_affirmative_sends_and_clears ctxConfirm "yes" envOk rOmar
    "Hi Omar, following up on the iron quotation." "Follow-up on: iron quotation"
    rfl rfl rfl (by decide) rfl (by decide) (by decide) rfl

/-- C10: a negative confirmation reply redrafts in place — the single
session write differs from the stored context only in the two draft fields
(`last_email_message`, `last_email_subject`); state discriminator,
recipient, topic and options are untouched. -/
theorem C10_redraft_frame (c : Ctx) (msg : String) (env : Env) (r : Recipient)
    (m s : String)
    (hst : c.chat_state = some "awaiting_approval")
    (hr : c.recipient = some r)
    (hm : c.last_email_message = some m) (hm0 : m ≠ "")
    (hs : c.last_email_subject = some s) (hs0 : s ≠ "")
    (hpos : positive_responses.any (fun word => pyIn word (pyLower (pyStrip msg))) = false)
    (hneg : negative_responses.any (fun word => pyIn word (pyLower (pyStrip msg))) = true) :
    (chat_command c msg env).writes =
      [{ c with
          last_email_message := some (pyStrip env.llmDraft),
          last_email_subject :=
            some ("Follow-up on: " ++ c.last_topic.getD "your request") }] ∧
    (chat_command c msg env).sends = [] := by
  simp [chat_command, chatStateOf, hst, handleApproval, pyFalsy, hm, hs, hr, hm0, hs0,
    hpos, hneg]

/-- Witness for C10 at the concrete confirmation session. -/
theorem C10_redraft_frame_witness :
    (chat_command ctxConfirm "no, change it" envOk).writes =
      [{ ctxConfirm with
          last_email_message := some (pyStrip envOk.llmDraft),
          last_email_subject :=
            some ("Follow-up on: " ++ ctxConfirm.last_topic.getD "your request") }] ∧
    (chat_command ctxConfirm "no, change it" envOk).sends = [] :=
  C10_redraft_frame ctxConfirm "no, change it" envOk rOmar
    "Hi Omar, following up on the iron quotation." "Follow-up on: iron quotation"
    rfl rfl rfl (by decide) rfl (by decide) (by decide) (by decide)

/-- C8 counterexample: with zero directory matches the reply status is
`"error"`, not `"not_found"` (no session is written either way). -/
theorem C8_counterexample_status_is_error :
    statusOf (chat_command Ctx.empty "email Bob about pricing"
      { extractParse := some { name := some "Bob", topic := some "pricing" } }) =
        some "error" ∧
    statusOf (chat_command Ctx.empty "email Bob about pricing"
      { extractParse := some { name := some "Bob", topic := some "pricing" } }) ≠
        some "not_found" ∧
    (chat_command Ctx.empty "email Bob about pricing"
      { extractParse := some { name := some "Bob", topic := some "pricing" } }).writes =
        [] := by
  decide

/-- C8 (amended): when the initial-state directory search returns zero
matches the engine replies with status `"error"` and the message
`No suppliers found matching '<name>'.`, writes no session and sends
nothing.  (The claim's proviso "no email address was extracted" is vacuous:
the extraction step never produces an email address.) -/
theorem C8_no_match_is_terminal_error (c : Ctx) (msg name : String) (env : Env)
    (d : ExtractDict)
    (hst1 : chatStateOf c ≠ "awaiting_recipient_choice")
    (hst2 : chatStateOf c ≠ "awaiting_approval")
    (hp : env.extractParse = some d) (hname : d.name = some name) (h0 : name ≠ "")
    (hsearch : env.supplierSearch = []) :
    (chat_command c msg env).outcome =
      .ok { status := "error",
            message := some ("No suppliers found matching \x27" ++ name ++ "\x27.") } ∧
    (chat_command c msg env).writes = [] ∧
    (chat_command c msg env).sends = [] := by
  simp only [chatStateOf] at hst1 hst2
  simp [chat_command, chatStateOf, hst1, hst2, handleInitial, hp, hname, pyFalsy, h0,
    hsearch]

/-- Witness for C8 (amended) at a concrete empty search result. -/
theorem C8_no_match_is_terminal_error_witness :
    (chat_command Ctx.empty "email Bob about pricing"
      { extractParse := some { name := some "Bob", topic := some "pricing" } }).outcome =
      .ok { status := "error",
            message := some "No suppliers found matching \x27Bob\x27." } ∧
    (chat_command Ctx.empty "email Bob about pricing"
      { extractParse := some { name := some "Bob", topic := some "pricing" } }).writes =
      [] ∧
    (chat_command Ctx.empty "email Bob about pricing"
      { extractParse := some { name := some "Bob", topic := some "pricing" } }).sends =
      [] :=
  C8_no_match_is_terminal_error Ctx.empty "email Bob about pricing" "Bob"
    { extractParse := some { name := some "Bob", topic := some "pricing" } }
    { name := some "Bob", topic := some "pricing" }
    (by decide) (by decide) rfl rfl (by decide) rfl

/-- C9 counterexample: when extraction parses but yields no name, the reply
status is `"error"`, not `"need_input"`; moreover a parse failure does not
produce empty fields — the code falls back to the first word of the
message, here `"email"`, and proceeds with it as the supplier name. -/
theorem C9_counterexample_status_is_error :
    statusOf (chat_command Ctx.empty "email someone about pricing"
      { extractParse := some { name := none, topic := some "pricing" } }) =
        some "error" ∧
    statusOf (chat_command Ctx.empty "email someone about pricing"
      { extractParse := some { name := none, topic := some "pricing" } }) ≠
        some "need_input" := by
  decide

/-- C9 (amended): in the initial state, if the parsed extraction carries no
(or an empty) recipient name, the engine replies with status `"error"` and
message `Could not extract the supplier name from your message.`, writing
no session.  (On generator parse failure the code does not return empty
fields: it falls back to the message's first word as the name — raising an
uncaught `IndexError` when the message is empty.) -/
theorem C9_no_name_is_error_reply (c : Ctx) (msg : String) (env : Env) (d : ExtractDict)
    (hst1 : chatStateOf c ≠ "awaiting_recipient_choice")
    (hst2 : chatStateOf c ≠ "awaiting_approval")
    (hp : env.extractParse = some d) (hname : pyFalsy d.name) :
    (chat_command c msg env).outcome =
      .ok { status := "error",
            message := some "Could not extract the supplier name from your message." } ∧
    (chat_command c msg env).writes = [] ∧
    (chat_command c msg env).sends = [] := by
  simp only [chatStateOf] at hst1 hst2
  simp [chat_command, chatStateOf, hst1, hst2, handleInitial, hp, hname]

/-- Witness for C9 (amended) at a concrete extraction without a name. -/
theorem C9_no_name_is_error_reply_witness :
    (chat_command Ctx.empty "email someone about pricing"
      { extractParse := some { name := none, topic := some "pricing" } }).outcome =
      .ok { status := "error",
            message := some "Could not extract the supplier name from your message." } ∧
    (chat_command Ctx.empty "email someone about pricing"
      { extractParse := some { name := none, topic := some "pricing" } }).writes = [] ∧
    (chat_command Ctx.empty "email someone about pricing"
      { extractParse := some { name := none, topic := some "pricing" } }).sends = [] :=
  C9_no_name_is_error_reply Ctx.empty "email someone about pricing"
    { extractParse := some { name := none, topic := some "pricing" } }
    { name := none, topic := some "pricing" }
    (by decide) (by decide) rfl (by decide)

/-- C1 counterexample: resolving a recipient choice persists an
intermediate context that is already in `awaiting_approval` but has no
draft yet (`main.py` lines 77-80) — this write violates the
AWAITING_CONFIRMATION invariant. -/
theorem C1_counterexample_intermediate_write :
    (chat_command ctxChoice "omar" envChoice).writes.head? = some ctxIntermediate ∧
    chatStateOf ctxIntermediate = "awaiting_approval" ∧
    ctxIntermediate.last_email_message = none ∧
    ¬ invariantOK ctxIntermediate := by
  decide

theorem choice_branch_invariant (c : Ctx) (u : String) (env : Env) (w : Ctx)
    (hc : invariantOK c) (hd : pyStrip env.llmDraft ≠ "")
    (hw : applyWrites (some c) (handleRecipientChoice c u env).writes = some w) :
    invariantOK w := by
  simp only [handleRecipientChoice] at hw
  rcases h1 : matchedRecipient (pyLower u) c.options with _ | mr
  · rw [h1] at hw
    simp [applyWrites] at hw
    exact hw ▸ hc
  · rw [h1] at hw
    rcases h2 : env.supplierByName with _ | ⟨r, rest⟩
    · rw [h2] at hw
      simp [applyWrites] at hw
      exact hw ▸ hc
    · rw [h2] at hw
      simp [applyWrites] at hw
      subst hw
      intro _
      refine ⟨by simp, ?_, ?_⟩
      · simp [pyFalsy]
        exact string_append_ne_empty _ _ (by decide)
      · simp [pyFalsy]
        exact hd

theorem approval_branch_invariant (c : Ctx) (u : String) (env : Env) (w : Ctx)
    (hc : invariantOK c) (hst : chatStateOf c = "awaiting_approval")
    (hd : pyStrip env.llmDraft ≠ "")
    (hw : applyWrites (some c) (handleApproval c u env).writes = some w) :
    invariantOK w := by
  obtain ⟨hrec, hsub, hmsg⟩ := hc hst
  simp only [handleApproval] at hw
  split at hw
  · simp [applyWrites] at hw
    exact hw ▸ hc
  · split at hw
    · rcases h2 : c.recipient with _ | r
      · rw [h2] at hw
        simp [applyWrites] at hw
        exact hw ▸ hc
      · rw [h2] at hw
        rcases h3 : env.webhook with e | u'
        · rw [h3] at hw
          simp [applyWrites] at hw
          exact hw ▸ hc
        · rw [h3] at hw
          simp [applyWrites] at hw
          subst hw
          decide
    · split at hw
      · rcases h2 : c.recipient with _ | r
        · rw [h2] at hw
          simp [applyWrites] at hw
          exact hw ▸ hc
        · rw [h2] at hw
          simp [applyWrites] at hw
          subst hw
          intro _
          refine ⟨?_, ?_, ?_⟩
          · simp
          · simp [pyFalsy]
            exact string_append_ne_empty _ _ (by decide)
          · simp [pyFalsy]
            exact hd
      · simp [applyWrites] at hw
        exact hw ▸ hc

theorem initial_branch_invariant (c : Ctx) (u : String) (env : Env) (w : Ctx)
    (hc : invariantOK c) (hd : pyStrip env.llmDraft ≠ "")
    (hw : applyWrites (some c) (handleInitial c u env).writes = some w) :
    invariantOK w := by
  rcases hp : env.extractParse with _ | d
  · rcases hq : pySplit u with _ | ⟨w0, ws⟩
    · simp only [handleInitial, hp, hq] at hw
      simp [applyWrites] at hw
      exact hw ▸ hc
    · simp only [handleInitial, hp, hq] at hw
      split at hw
      · simp [applyWrites] at hw
        exact hw ▸ hc
      · rcases h2 : env.supplierSearch with _ | ⟨r, _ | ⟨r2, rest⟩⟩ <;> rw [h2] at hw
        · simp [applyWrites] at hw
          exact hw ▸ hc
        · simp [applyWrites] at hw
          subst hw
          intro _
          refine ⟨by simp, ?_, ?_⟩
          · simp [pyFalsy]
            exact string_append_ne_empty _ _ (by decide)
          · simp [pyFalsy]
            exact hd
        · simp [applyWrites] at hw
          subst hw
          intro habs
          simp [chatStateOf] at habs
  · simp only [handleInitial, hp] at hw
    split at hw
    · simp [applyWrites] at hw
      exact hw ▸ hc
    · rcases h2 : env.supplierSearch with _ | ⟨r, _ | ⟨r2, rest⟩⟩ <;> rw [h2] at hw
      · simp [applyWrites] at hw
        exact hw ▸ hc
      · simp [applyWrites] at hw
        subst hw
        intro _
        refine ⟨by simp, ?_, ?_⟩
        · simp [pyFalsy]
          exact string_append_ne_empty _ _ (by decide)
        · simp [pyFalsy]
          exact hd
      · simp [applyWrites] at hw
        subst hw
        intro habs
        simp [chatStateOf] at habs

/-- C1 (amended): intermediate persisted writes during a transition into
`awaiting_approval` may lack the draft (see the counterexample), but the
session at rest after a completed request keeps the invariant: if the
stored context satisfied it before the request and the draft generator
returns a non-empty body, then the context held by the store once the
request finishes satisfies it too. -/
theorem C1_invariant_at_rest (c : Ctx) (msg : String) (env : Env) (w : Ctx)
    (hc : invariantOK c) (hd : pyStrip env.llmDraft ≠ "")
    (hw : applyWrites (some c) (chat_command c msg env).writes = some w) :
    invariantOK w := by
  simp only [chat_command] at hw
  by_cases h1 : chatStateOf c = "awaiting_recipient_choice"
  · rw [if_pos h1] at hw
    exact choice_branch_invariant c (pyStrip msg) env w hc hd hw
  · rw [if_neg h1] at hw
    by_cases h2 : chatStateOf c = "awaiting_approval"
    · rw [if_pos h2] at hw
      exact approval_branch_invariant c (pyStrip msg) env w hc h2 hd hw
    · rw [if_neg h2] at hw
      exact initial_branch_invariant c (pyStrip msg) env w hc hd hw

/-- The context at rest after the recipient-choice transition completes. -/
def ctxAfterChoice : Ctx :=
  { ctxIntermediate with
    last_email_message := some "Hi Omar, quick follow-up on the iron quotation.",
    last_email_subject := some "Follow-up on: iron quotation" }

/-- Witness for C1 (amended): the completed recipient-choice transition
leaves a stored context satisfying the invariant. -/
theorem C1_invariant_at_rest_witness : invariantOK ctxAfterChoice :=
  C1_invariant_at_rest ctxChoice "omar" envChoice ctxAfterChoice
    (by decide) (by decide) (by decide)

end ProjectTracker
